import Mathlib

/-!
Shallow embedding of `src/filters/all-exceptions.filter.ts`: the global
exception-normalization filter (`AllExceptionsFilter.catch`) of the
NestJS logging/error-handling demo.

The filter receives an arbitrary thrown JavaScript value plus request
context and produces a JSON error body `{statusCode, timestamp, path,
message, errorCode?}` together with the status code passed to
`httpAdapter.reply`.  We model JavaScript runtime values with `JSValue`,
thrown values with `JSException` (splitting on the two `instanceof`
tests the source performs), and the filter body with `catchException`,
written in the `Except String` monad so that the JavaScript operations
that can throw a `TypeError` at runtime (the `in` operator on a
primitive, property access on `null`/`undefined`) are modelled as
genuine failures; the theorems then show the source's guards make the
filter total.
-/

/-- A JavaScript runtime value, as far as the filter inspects payloads:
strings, numbers (the payloads of interest carry integers), booleans,
`null`, `undefined`, arrays and plain objects (ordered field lists;
property lookup finds the first matching key, matching object-literal
semantics where duplicate keys cannot coexist at runtime). -/
inductive JSValue where
  | str : String → JSValue
  | num : Int → JSValue
  | bool : Bool → JSValue
  | null : JSValue
  | undefined : JSValue
  | arr : List JSValue → JSValue
  | obj : List (String × JSValue) → JSValue
deriving Repr

/-- `v === null` (the strict comparison the source performs). -/
def JSValue.isNull : JSValue → Bool
  | .null => true
  | _ => false

/-- `v === undefined` (the strict comparison the source performs). -/
def JSValue.isUndefined : JSValue → Bool
  | .undefined => true
  | _ => false

/-- JavaScript `typeof v`.  Note `typeof null` is `"object"`, and arrays
are `"object"` as well; this is exactly what the source's
`typeof response === "object"` test sees. -/
def jsTypeof : JSValue → String
  | .str _ => "string"
  | .num _ => "number"
  | .bool _ => "boolean"
  | .null => "object"
  | .undefined => "undefined"
  | .arr _ => "object"
  | .obj _ => "object"

mutual

/-- `Array.prototype.join`: `jsJoin sep xs` is `xs.join(sep)` for the
values of our model. -/
def jsJoin (sep : String) : List JSValue → String
  | [] => ""
  | [x] => jsJoinElem x
  | x :: y :: ys => jsJoinElem x ++ sep ++ jsJoin sep (y :: ys)

/-- How `Array.prototype.join` renders one element: `null` and
`undefined` become the empty string, every other value converts as
JavaScript `String(v)` does (nested arrays join with `","`, objects
become `"[object Object]"`). -/
def jsJoinElem : JSValue → String
  | .null => ""
  | .undefined => ""
  | .str s => s
  | .num n => toString n
  | .bool b => if b then "true" else "false"
  | .arr xs => jsJoin "," xs
  | .obj _ => "[object Object]"

end

/-- The JavaScript `key in v` operator.  Succeeds on objects (key among
the field names) and on arrays (index properties and `length`); throws
a `TypeError` on every primitive, including `null` and `undefined` —
which is why the source guards it with
`typeof response === "object" && response !== null`. -/
def jsIn (key : String) (v : JSValue) : Except String Bool :=
  match v with
  | .obj fields => .ok (fields.lookup key).isSome
  | .arr xs => .ok (key == "length" || (List.range xs.length).any (fun i => toString i == key))
  | _ => .error "TypeError: cannot use in operator on a non-object"

/-- JavaScript property access `v[key]`.  Throws a `TypeError` on
`null` and `undefined`; yields `undefined` for a missing key and on
other primitives (we do not model boxed-primitive prototype
properties, which the filter never touches). -/
def jsGet (key : String) (v : JSValue) : Except String JSValue :=
  match v with
  | .null => .error "TypeError: cannot read properties of null"
  | .undefined => .error "TypeError: cannot read properties of undefined"
  | .obj fields =>
      .ok (match fields.lookup key with
            | some x => x
            | none => .undefined)
  | .arr xs =>
      .ok (if key == "length" then .num xs.length
           else match (List.range xs.length).find? (fun i => toString i == key) with
                | some i => xs.getD i .undefined
                | none => .undefined)
  | _ => .ok .undefined

/-- A thrown value as the filter's two `instanceof` tests partition it:
`httpException payload status` is a NestJS `HttpException` (classified
exception) whose `getResponse()` returns `payload` and whose
`getStatus()` returns `status`; `errorInstance message` is an `Error`
instance that is not an `HttpException` (its `.message` property is
always a string); `other v` is any other thrown value (`instanceof
HttpException` and `instanceof Error` are both false for it). -/
inductive JSException where
  | httpException : JSValue → Nat → JSException
  | errorInstance : String → JSException
  | other : JSValue → JSException
deriving Repr

/-- `exception instanceof HttpException`: the source's classification
test. -/
def JSException.isClassified : JSException → Bool
  | .httpException _ _ => true
  | _ => false

/-- The `ApiErrorResponseBody` object literal the filter builds.
`message` is a `JSValue` because the source assigns
`(msg as string)` — a compile-time cast with no runtime conversion —
so at runtime the field holds whatever value the payload carried.
`errorCode := none` models the key being absent from the body (the
spread `...(errorCode !== undefined ? { errorCode } : {})`). -/
structure ApiErrorResponseBody where
  statusCode : Nat
  timestamp : String
  path : String
  message : JSValue
  errorCode : Option JSValue
deriving Repr

/-- Does the body's `message` hold a JavaScript string? -/
def ApiErrorResponseBody.messageIsString (b : ApiErrorResponseBody) : Bool :=
  match b.message with
  | .str _ => true
  | _ => false

/-- `HttpStatus.INTERNAL_SERVER_ERROR`. -/
def INTERNAL_SERVER_ERROR : Nat := 500

/-- `AllExceptionsFilter.catch(exception, host)` from
`src/filters/all-exceptions.filter.ts`, line by line.

Inputs: the thrown `exception`; `nodeEnv` = `process.env.NODE_ENV`
(`none` when unset); `now` = `new Date().toISOString()`; `requestUrl` =
`httpAdapter.getRequestUrl(request)`.

Output: `(responseBody, httpStatus)` — the body and the status code the
source passes to `httpAdapter.reply(ctx.getResponse(), responseBody,
httpStatus)`.  The `Except` layer carries the JavaScript `TypeError`s
that `in` / property access would throw were the source's guards absent.

Source correspondence:
* `httpStatus` — `exception instanceof HttpException ?
  exception.getStatus() : HttpStatus.INTERNAL_SERVER_ERROR`.
* classified branch — `response = exception.getResponse()`; the guard
  `typeof response === "object" && response !== null &&
  "message" in response` (with `&&` short-circuit, so `jsIn` only runs
  under the first two conjuncts); then
  `Array.isArray(msg) ? msg.join(", ") : (msg as string)`; the
  `else if (typeof response === "string")` arm; the
  `"An HTTP error occurred"` fallback; and the analogous guarded
  `errorCode` probe.
* unclassified branch — `process.env.NODE_ENV !== "production" &&
  exception instanceof Error ? exception.message :
  "Internal server error"`; for `other` the `instanceof Error` conjunct
  is false, so the conditional collapses to the generic string.
* body — the object literal with `statusCode`, `timestamp`, `path`,
  `message` and the conditional spread of `errorCode`. -/
def catchException (exception : JSException) (nodeEnv : Option String)
    (now : String) (requestUrl : String) :
    Except String (ApiErrorResponseBody × Nat) := do
  let httpStatus : Nat :=
    match exception with
    | .httpException _ s => s
    | _ => INTERNAL_SERVER_ERROR
  let path : String := requestUrl
  let pair : JSValue × JSValue ←
    match exception with
    | .httpException response _ => do
        let hasMessage ←
          if jsTypeof response == "object" && !response.isNull then
            jsIn "message" response
          else
            pure false
        let message ←
          if hasMessage then do
            let msg ← jsGet "message" response
            pure (match msg with
                  | .arr xs => JSValue.str (jsJoin ", " xs)
                  | m => m)
          else if jsTypeof response == "string" then
            pure response
          else
            pure (JSValue.str "An HTTP error occurred")
        let hasErrorCode ←
          if jsTypeof response == "object" && !response.isNull then
            jsIn "errorCode" response
          else
            pure false
        let errorCode ←
          if hasErrorCode then jsGet "errorCode" response
          else pure JSValue.undefined
        pure (message, errorCode)
    | .errorInstance msg =>
        pure (if nodeEnv ≠ some "production" then JSValue.str msg
              else JSValue.str "Internal server error",
              JSValue.undefined)
    | .other _ =>
        pure (JSValue.str "Internal server error", JSValue.undefined)
  let responseBody : ApiErrorResponseBody :=
    { statusCode := httpStatus
      timestamp := now
      path := path
      message := pair.1
      errorCode := if pair.2.isUndefined then none else some pair.2 }
  pure (responseBody, httpStatus)

/-- The join the spec describes: a list of strings joined with the
two-character separator `", "`. -/
def joinWithCommaSpace : List String → String
  | [] => ""
  | [s] => s
  | s :: rest => s ++ ", " ++ joinWithCommaSpace rest

/-- Closed form of the `message` the classified branch computes for a
structured (object) payload: the first `message` field joined with
`", "` when it is an array, passed through raw otherwise, and the
`"An HTTP error occurred"` fallback when the field is missing.
Proved equal to the embedding in `catch_obj_payload_eq`. -/
def classifiedObjMessage (fields : List (String × JSValue)) : JSValue :=
  match fields.lookup "message" with
  | some (.arr xs) => .str (jsJoin ", " xs)
  | some m => m
  | none => .str "An HTTP error occurred"

/-- Closed form of the body's `errorCode` for a structured (object)
payload: the first `errorCode` field when it holds a defined value,
absent (`none`) otherwise.  Proved equal to the embedding in
`catch_obj_payload_eq`. -/
def classifiedObjErrorCode (fields : List (String × JSValue)) : Option JSValue :=
  match fields.lookup "errorCode" with
  | some v => if v.isUndefined then none else some v
  | none => none

/-- The status the filter computes: `exception instanceof HttpException
? exception.getStatus() : HttpStatus.INTERNAL_SERVER_ERROR`. -/
def statusOf : JSException → Nat
  | .httpException _ s => s
  | _ => INTERNAL_SERVER_ERROR

/-- Reduction of the filter on a classified exception with a plain
string payload: the `"message" in response` probe is skipped (`typeof
response` is `"string"`), `message` is the payload itself, and
`errorCode` stays unset. -/
theorem catch_string_payload_eq (s : String) (status : Nat) (env : Option String)
    (now url : String) :
    catchException (.httpException (.str s) status) env now url =
      .ok ({ statusCode := status, timestamp := now, path := url,
             message := .str s, errorCode := none }, status) := rfl

/-- Reduction of the filter on an unclassified thrown value that is not
an `Error` instance: the `instanceof Error` conjunct short-circuits the
environment test, so the message is the generic string. -/
theorem catch_other_value_eq (v : JSValue) (env : Option String) (now url : String) :
    catchException (.other v) env now url =
      .ok ({ statusCode := 500, timestamp := now, path := url,
             message := .str "Internal server error", errorCode := none }, 500) := rfl

/-- Reduction of the filter on an unclassified `Error` instance: the
message is the error's own message except under
`NODE_ENV === "production"`. -/
theorem catch_error_instance_eq (m : String) (env : Option String) (now url : String) :
    catchException (.errorInstance m) env now url =
      .ok ({ statusCode := 500, timestamp := now, path := url,
             message := if env ≠ some "production" then .str m
                        else .str "Internal server error",
             errorCode := none }, 500) := by
  by_cases h : env = some "production" <;>
    simp [catchException, h, JSValue.isUndefined, INTERNAL_SERVER_ERROR, pure, Except.pure,
          Bind.bind, Except.bind]

/-- Reduction of the filter on a classified exception with a structured
(object) payload, in terms of the closed forms `classifiedObjMessage`
and `classifiedObjErrorCode`. -/
theorem catch_obj_payload_eq (fields : List (String × JSValue)) (status : Nat)
    (env : Option String) (now url : String) :
    catchException (.httpException (.obj fields) status) env now url =
      .ok ({ statusCode := status, timestamp := now, path := url,
             message := classifiedObjMessage fields,
             errorCode := classifiedObjErrorCode fields }, status) := by
  cases hm : fields.lookup "message" with
  | none =>
      cases he : fields.lookup "errorCode" <;>
        simp [catchException, jsIn, jsGet, jsTypeof, JSValue.isNull, JSValue.isUndefined,
              classifiedObjMessage, classifiedObjErrorCode, hm, he,
              Bind.bind, Except.bind, pure, Except.pure]
  | some v =>
      cases he : fields.lookup "errorCode" <;> cases v <;>
        simp [catchException, jsIn, jsGet, jsTypeof, JSValue.isNull, JSValue.isUndefined,
              classifiedObjMessage, classifiedObjErrorCode, hm, he,
              Bind.bind, Except.bind, pure, Except.pure]

/-- For every thrown value and every environment the filter completes
with a reply whose body carries the request URL as `path`, the
handling-time instant as `timestamp`, and the computed status both in
the body and as the status argument of `reply`. -/
theorem catch_result_facts (e : JSException) (env : Option String) (now url : String) :
    (catchException e env now url).toOption.map
      (fun r => (r.1.path, r.1.timestamp, r.1.statusCode, r.2)) =
      some (url, now, statusOf e, statusOf e) := by
  cases e with
  | httpException response status =>
      cases response with
      | str s => rw [catch_string_payload_eq] ; rfl
      | obj fields => rw [catch_obj_payload_eq] ; rfl
      | num n => rfl
      | bool b => rfl
      | null => rfl
      | undefined => rfl
      | arr xs =>
          simp only [catchException, Bind.bind, Except.bind, jsIn, jsGet, jsTypeof,
                     JSValue.isNull, pure, Except.pure, statusOf]
          split <;> (try split) <;> (try split) <;> (try split) <;> (try split) <;> rfl
  | errorInstance m => rw [catch_error_instance_eq] ; rfl
  | other v => rfl

/-- `Array.prototype.join(", ")` on an array of strings agrees with the
spec's comma-space join. -/
theorem jsJoin_str_list (ss : List String) :
    jsJoin ", " (ss.map JSValue.str) = joinWithCommaSpace ss := by
  induction ss with
  | nil => rfl
  | cons s rest ih =>
      cases rest with
      | nil => rfl
      | cons r rs =>
          simp only [List.map, jsJoin, jsJoinElem, joinWithCommaSpace] at ih ⊢
          rw [ih]

/-- C1: for every classified exception (`HttpException`) whose payload
is a plain string, the response body's `message` is exactly that
string, its `statusCode` is the exception's own declared status, and
the same status code is passed to `reply` (the second component of the
result). -/
theorem classified_string_payload_message_and_status (s : String) (status : Nat)
    (env : Option String) (now url : String) :
    (catchException (.httpException (.str s) status) env now url).toOption.map
      (fun r => (r.1.message, r.1.statusCode, r.2)) = some (.str s, status, status) := rfl

/-- C2: for every unclassified exception (any thrown value that is not
an `HttpException`), the response status is 500 — in the body and as
the status passed to `reply` — and the `errorCode` key is never present
in the response body. -/
theorem unclassified_status_500_and_no_errorCode (e : JSException) (env : Option String)
    (now url : String) (h : e.isClassified = false) :
    (catchException e env now url).toOption.map
      (fun r => (r.1.statusCode, r.1.errorCode, r.2)) = some (500, none, 500) := by
  cases e with
  | httpException p s => simp [JSException.isClassified] at h
  | errorInstance m => rw [catch_error_instance_eq] ; rfl
  | other v => rfl

/-- Witness for C2 at the unclassified exception `Error("boom")` in a
non-production environment. -/
theorem unclassified_status_500_and_no_errorCode_witness :
    (catchException (.errorInstance "boom") (some "test") "T" "/p").toOption.map
      (fun r => (r.1.statusCode, r.1.errorCode, r.2)) = some (500, none, 500) :=
  unclassified_status_500_and_no_errorCode _ _ _ _ rfl

/-- C3: in production mode (`NODE_ENV = "production"`), every
unclassified exception produces the fixed message
`"Internal server error"`, whatever the thrown value contained: the
original exception text never reaches the client. -/
theorem unclassified_production_message_redacted (e : JSException) (now url : String)
    (h : e.isClassified = false) :
    (catchException e (some "production") now url).toOption.map (fun r => r.1.message) =
      some (.str "Internal server error") := by
  cases e with
  | httpException p s => simp [JSException.isClassified] at h
  | errorInstance m => rw [catch_error_instance_eq] ; simp [Except.toOption]
  | other v => rfl

/-- Witness for C3 at `Error("Sensitive detail")` with
`NODE_ENV = "production"`. -/
theorem unclassified_production_message_redacted_witness :
    (catchException (.errorInstance "Sensitive detail") (some "production") "T" "/p").toOption.map
      (fun r => r.1.message) = some (.str "Internal server error") :=
  unclassified_production_message_redacted _ _ _ rfl

/-- C4, counterexample to the claim as stated: in non-production mode
(`NODE_ENV = "development"`) the unclassified thrown value
`{message: "boom"}` — a non-`Error` value whose own message text is
`"boom"` — yields the generic `"Internal server error"`, not `"boom"`:
the source's `exception instanceof Error` conjunct sends every
non-`Error` value to the generic message even outside production. -/
theorem nonprod_nonError_message_counterexample :
    (catchException (.other (.obj [("message", JSValue.str "boom")])) (some "development")
        "2026-02-12T00:00:00.000Z" "/test-path").toOption.map (fun r => r.1.message) =
      some (JSValue.str "Internal server error") ∧
    "Internal server error" ≠ "boom" := ⟨rfl, by decide⟩

/-- C4 as amended: in non-production mode the response message equals
the original exception's message text exactly when the unclassified
exception is an `Error` instance; an unclassified thrown value that is
not an `Error` instance receives the fixed `"Internal server error"`
message even in non-production mode. -/
theorem nonprod_unclassified_message_amended (m : String) (v : JSValue)
    (env : Option String) (now url : String) (h : env ≠ some "production") :
    (catchException (.errorInstance m) env now url).toOption.map (fun r => r.1.message) =
        some (.str m) ∧
    (catchException (.other v) env now url).toOption.map (fun r => r.1.message) =
        some (.str "Internal server error") := by
  refine ⟨?_, rfl⟩
  rw [catch_error_instance_eq] ; simp [Except.toOption, h]

/-- Witness for the amended C4 at `Error("Sensitive detail")` and at a
thrown string, both with `NODE_ENV = "development"`. -/
theorem nonprod_unclassified_message_amended_witness :
    (catchException (.errorInstance "Sensitive detail") (some "development") "T" "/p").toOption.map
        (fun r => r.1.message) = some (.str "Sensitive detail") ∧
    (catchException (.other (JSValue.str "x")) (some "development") "T" "/p").toOption.map
        (fun r => r.1.message) = some (.str "Internal server error") :=
  nonprod_unclassified_message_amended "Sensitive detail" (JSValue.str "x")
    (some "development") "T" "/p" (by simp)

/-- C5: for every classified exception whose structured payload has a
`message` field holding a sequence of strings, the response `message`
is those strings joined with the two-character separator `", "`. -/
theorem classified_array_message_joined (fields : List (String × JSValue))
    (ss : List String) (status : Nat) (env : Option String) (now url : String)
    (h : fields.lookup "message" = some (.arr (ss.map JSValue.str))) :
    (catchException (.httpException (.obj fields) status) env now url).toOption.map
      (fun r => r.1.message) = some (.str (joinWithCommaSpace ss)) := by
  rw [catch_obj_payload_eq]
  simp [Except.toOption, classifiedObjMessage, h, jsJoin_str_list]

/-- Witness for C5 at payload `{message: ["Error one", "Error two"]}`,
status 422: the message is `"Error one, Error two"`. -/
theorem classified_array_message_joined_witness :
    (catchException
        (.httpException
          (.obj [("message", JSValue.arr [JSValue.str "Error one", JSValue.str "Error two"])]) 422)
        none "T" "/p").toOption.map (fun r => r.1.message) =
      some (.str "Error one, Error two") :=
  classified_array_message_joined _ ["Error one", "Error two"] _ _ _ _ rfl

/-- C6: for a classified exception with a structured payload, the
`errorCode` key is present in the response body with value `c` exactly
when the payload supplies an `errorCode` field holding the defined
value `c`; when no such field is supplied (including a field explicitly
set to `undefined`, which JSON serialization cannot represent and the
source's `errorCode !== undefined` test filters out), the key is absent
(`none`), never set to null. -/
theorem classified_errorCode_present_iff_supplied (fields : List (String × JSValue))
    (status : Nat) (env : Option String) (now url : String) (c : JSValue) :
    (catchException (.httpException (.obj fields) status) env now url).toOption.map
        (fun r => r.1.errorCode) = some (some c)
      ↔ fields.lookup "errorCode" = some c ∧ c.isUndefined = false := by
  rw [catch_obj_payload_eq]
  cases he : fields.lookup "errorCode" with
  | none => simp [Except.toOption, classifiedObjErrorCode, he]
  | some w =>
      cases hw : w.isUndefined with
      | true =>
          simp [Except.toOption, classifiedObjErrorCode, he, hw]
          intro hc
          rw [← hc] ; exact hw
      | false =>
          simp [Except.toOption, classifiedObjErrorCode, he, hw]
          intro hc
          rw [← hc] ; exact hw

/-- C7, evaluation at the failing input: the claim says `message` is
always a string, and the source's own `ApiErrorResponseBody` interface
declares `message: string`; but for the classified exception
`HttpException({message: 42}, 400)` the runtime-unchecked cast
`(msg as string)` passes the number 42 through raw, so the response
body's `message` is not a string. -/
theorem classified_nonstring_message_passed_through_raw :
    (catchException (.httpException (.obj [("message", JSValue.num 42)]) 400) none
        "2026-02-12T00:00:00.000Z" "/test-path").toOption.map
      (fun r => (r.1.statusCode, r.1.message, r.1.messageIsString)) =
      some (400, JSValue.num 42, false) := rfl

/-- C8: the normalizer itself never throws: for every thrown value,
payload shape and environment, `catch` runs to completion and produces
a reply (`Except.ok`), even though the JavaScript `in` operator and
property access it uses are modelled as throwing on non-objects — the
source's guards make every probe safe, and payloads it cannot inspect
fall back to the generic message rather than propagating a failure. -/
theorem catch_never_throws (e : JSException) (env : Option String) (now url : String) :
    (catchException e env now url).isOk = true := by
  have h := catch_result_facts e env now url
  cases hx : catchException e env now url with
  | error msg => rw [hx] at h ; simp [Except.toOption] at h
  | ok r => rfl

/-- C9: for every caught exception the response body's `path` equals
the URL returned by the transport abstraction's accessor
(`httpAdapter.getRequestUrl(request)`), exactly as supplied. -/
theorem catch_path_equals_request_url (e : JSException) (env : Option String)
    (now url : String) :
    (catchException e env now url).toOption.map (fun r => r.1.path) = some url := by
  have h := catch_result_facts e env now url
  cases hx : catchException e env now url with
  | error msg => rw [hx] at h ; simp [Except.toOption] at h
  | ok r =>
      rw [hx] at h
      simp [Except.toOption] at h ⊢
      exact h.1
